import Mathlib

/-!
Verification of the ID3v2 frame-content decoding engine
(`src/id3/v2/frame/content.rs`).

Bytes are modelled as `Nat` (values below 256 in practice); the shared
mutable byte-slice cursor (`&mut &[u8]`) is modelled by explicit state
passing: each parsing function takes the remaining byte list and returns,
on success, its result paired with the bytes left unconsumed. Fallible
operations return `Except LoftyError`. The `unreachable!()` panic in
`parse_text_language` is modelled as the distinguished error value
`LoftyError.Unreachable`, so that "the panic is never executed" becomes
"the result is never `.error .Unreachable`".
-/

set_option maxRecDepth 4096

deriving instance DecidableEq for Except

namespace Lofty

/-- Rust's `str::starts_with` with a single-character pattern: whether the
first character of the string is `c`. -/
def startsWithChar (id : String) (c : Char) : Bool :=
  match id.data with
  | [] => false
  | d :: _ => d = c

/-- The ID3v2 tag version (`ID3v2Version`): at least two generations, the
oldest being `V2`. -/
inductive ID3v2Version where
  | V2
  | V3
  | V4
deriving DecidableEq

/-- Modelled from the spec: the text-encoding enumeration (`TextEncoding`,
from `crate::util::text`, not under `src/`): "at least Latin-1, UTF-16 with
explicit byte order, UTF-8, identified by a one-byte marker value
(0, 1, 2, 3)". -/
inductive TextEncoding where
  | Latin1
  | UTF16
  | UTF16BE
  | UTF8
deriving DecidableEq

/-- Modelled from the spec: the fixed marker-byte lookup
(`TextEncoding::from_u8`, not under `src/`): markers 0, 1, 2, 3 map to the
four known encodings, every other value is unknown. -/
def TextEncoding.from_u8 (n : Nat) : Option TextEncoding :=
  if n = 0 then some .Latin1
  else if n = 1 then some .UTF16
  else if n = 2 then some .UTF16BE
  else if n = 3 then some .UTF8
  else none

/-- The error type (`LoftyError` / `ID3v2Error`): the variants that the
frame-content engine can produce. `Unreachable` models the `unreachable!()`
panic; `Io` models a failed `Read` (end of buffer). -/
inductive LoftyError where
  | V2InvalidTextEncoding
  | TextDecode (msg : String)
  | Io
  | Unreachable
deriving DecidableEq

/-- Modelled from the spec: the attached-picture compound value
(`AttachedPictureFrame`, not under `src/`; "their internal layouts are not
re-specified"): an opaque record of the consumed bytes. -/
structure AttachedPictureFrame where
  raw : List Nat
deriving DecidableEq

/-- Modelled from the spec: the user-defined-text compound value
(`ExtendedTextFrame`, not under `src/`): an opaque record of the consumed
bytes. -/
structure ExtendedTextFrame where
  raw : List Nat
deriving DecidableEq

/-- Modelled from the spec: the user-defined-URL compound value
(`ExtendedUrlFrame`, not under `src/`): an opaque record of the consumed
bytes. -/
structure ExtendedUrlFrame where
  raw : List Nat
deriving DecidableEq

/-- Modelled from the spec: the unique-file-identifier compound value
(`UniqueFileIdentifierFrame`, not under `src/`): an opaque record of the
consumed bytes. -/
structure UniqueFileIdentifierFrame where
  raw : List Nat
deriving DecidableEq

/-- Modelled from the spec: the popularity-meter compound value
(`Popularimeter`, not under `src/`): an opaque record of the consumed
bytes. -/
structure Popularimeter where
  raw : List Nat
deriving DecidableEq

/-- The language-frame record (`LanguageFrame`): encoding, a fixed 3-byte
language code passed through verbatim, a description string and a content
string. -/
structure LanguageFrame where
  encoding : TextEncoding
  language : List Nat
  description : String
  content : String
deriving DecidableEq

/-- The decoded-frame tagged union (`FrameValue`): exactly the variants the
dispatcher can produce. -/
inductive FrameValue where
  | Picture (frame : AttachedPictureFrame)
  | UserText (frame : ExtendedTextFrame)
  | UserURL (frame : ExtendedUrlFrame)
  | Comment (frame : LanguageFrame)
  | UnSyncText (frame : LanguageFrame)
  | UniqueFileIdentifier (frame : UniqueFileIdentifierFrame)
  | Text (encoding : TextEncoding) (value : String)
  | URL (url : String)
  | Popularimeter (frame : Popularimeter)
  | Binary (data : List Nat)
deriving DecidableEq

/-- `ReadBytesExt::read_u8` on a byte-slice cursor: pop the front byte,
failing at end of buffer. -/
def read_u8 : List Nat → Except LoftyError (Nat × List Nat)
  | [] => .error .Io
  | b :: rest => .ok (b, rest)

/-- `Read::read_exact` with an `n`-byte destination on a byte-slice cursor:
take exactly `n` front bytes, failing when fewer remain. -/
def read_exact (n : Nat) (bytes : List Nat) :
    Except LoftyError (List Nat × List Nat) :=
  if bytes.length < n then .error .Io
  else .ok (bytes.take n, bytes.drop n)

/-- Modelled from the spec: the terminator scan of the text decoder for the
single-byte encodings (part of `decode_text`, not under `src/`): content is
everything before the first zero byte, the cursor moves past the
terminator; without a terminator the whole buffer is content. Returns
(content bytes, remaining bytes). -/
def scanTermNarrow : List Nat → (List Nat × List Nat)
  | [] => ([], [])
  | 0 :: rest => ([], rest)
  | b :: rest =>
    let p := scanTermNarrow rest
    (b :: p.1, p.2)

/-- Modelled from the spec: the terminator scan for the UTF-16 encodings
(part of `decode_text`, not under `src/`): the spec requires "a terminator
as a full code-unit-aligned null, not a lone zero byte", so the buffer is
walked two bytes at a time; a trailing lone byte cannot start a code unit
and is consumed without contributing content. -/
def scanTermWide : List Nat → (List Nat × List Nat)
  | b1 :: b2 :: rest =>
    if b1 = 0 ∧ b2 = 0 then ([], rest)
    else
      let p := scanTermWide rest
      (b1 :: b2 :: p.1, p.2)
  | _ => ([], [])

/-- Terminator scan selected by encoding. -/
def read_to_terminator (encoding : TextEncoding) (bytes : List Nat) :
    (List Nat × List Nat) :=
  match encoding with
  | .Latin1 | .UTF8 => scanTermNarrow bytes
  | .UTF16 | .UTF16BE => scanTermWide bytes

/-- Modelled from the spec: decoding a UTF-16 code-unit sequence into
characters, pairing surrogates; a lone or misordered surrogate is a
malformed payload. -/
def utf16Chars : List Nat → Option (List Char)
  | [] => some []
  | u :: rest =>
    if u < 0xD800 ∨ 0xE000 ≤ u then
      (utf16Chars rest).map (fun cs => Char.ofNat u :: cs)
    else if u < 0xDC00 then
      match rest with
      | u2 :: rest2 =>
        if 0xDC00 ≤ u2 ∧ u2 < 0xE000 then
          (utf16Chars rest2).map
            (fun cs =>
              Char.ofNat (0x10000 + (u - 0xD800) * 0x400 + (u2 - 0xDC00)) :: cs)
        else none
      | [] => none
    else none

/-- Combine a byte list pairwise into big-endian 16-bit code units (a
trailing lone byte yields no unit). -/
def beUnits : List Nat → List Nat
  | b1 :: b2 :: rest => (b1 * 256 + b2) :: beUnits rest
  | _ => []

/-- Combine a byte list pairwise into little-endian 16-bit code units. -/
def leUnits : List Nat → List Nat
  | b1 :: b2 :: rest => (b2 * 256 + b1) :: leUnits rest
  | _ => []

/-- Modelled from the spec: decoding a UTF-8 byte sequence into characters;
any ill-formed sequence (bad continuation, overlong form, surrogate code
point, out-of-range code point) is a malformed payload. -/
def utf8Chars : List Nat → Option (List Char)
  | [] => some []
  | b :: rest =>
    if b < 0x80 then
      (utf8Chars rest).map (fun cs => Char.ofNat b :: cs)
    else if 0xC2 ≤ b ∧ b < 0xE0 then
      match rest with
      | b2 :: rest2 =>
        if 0x80 ≤ b2 ∧ b2 < 0xC0 then
          (utf8Chars rest2).map
            (fun cs => Char.ofNat ((b - 0xC0) * 0x40 + (b2 - 0x80)) :: cs)
        else none
      | [] => none
    else if 0xE0 ≤ b ∧ b < 0xF0 then
      match rest with
      | b2 :: b3 :: rest2 =>
        if (0x80 ≤ b2 ∧ b2 < 0xC0) ∧ (0x80 ≤ b3 ∧ b3 < 0xC0) then
          let cp := (b - 0xE0) * 0x1000 + (b2 - 0x80) * 0x40 + (b3 - 0x80)
          if cp < 0x800 ∨ (0xD800 ≤ cp ∧ cp < 0xE000) then none
          else (utf8Chars rest2).map (fun cs => Char.ofNat cp :: cs)
        else none
      | _ => none
    else if 0xF0 ≤ b ∧ b < 0xF5 then
      match rest with
      | b2 :: b3 :: b4 :: rest2 =>
        if (0x80 ≤ b2 ∧ b2 < 0xC0) ∧ (0x80 ≤ b3 ∧ b3 < 0xC0) ∧
            (0x80 ≤ b4 ∧ b4 < 0xC0) then
          let cp := (b - 0xF0) * 0x40000 + (b2 - 0x80) * 0x1000 +
            (b3 - 0x80) * 0x40 + (b4 - 0x80)
          if cp < 0x10000 ∨ 0x110000 ≤ cp then none
          else (utf8Chars rest2).map (fun cs => Char.ofNat cp :: cs)
        else none
      | _ => none
    else none

/-- Modelled from the spec: decoding a raw content byte run under a
resolved encoding (the decoding core of `decode_text`, not under `src/`).
Latin-1 maps each byte to the character of the same code point and never
fails; UTF-16 requires an explicit byte order mark and an even,
BOM-inclusive length of at least 2; malformed payloads are decode
errors that propagate. -/
def decode_bytes (encoding : TextEncoding) (bytes : List Nat) :
    Except LoftyError String :=
  match encoding with
  | .Latin1 => .ok (String.mk (bytes.map Char.ofNat))
  | .UTF8 =>
    match utf8Chars bytes with
    | some cs => .ok (String.mk cs)
    | none => .error (.TextDecode "Expected a UTF-8 string")
  | .UTF16 =>
    if bytes.length < 2 then
      .error (.TextDecode "UTF-16 string has an invalid length")
    else if bytes.length % 2 ≠ 0 then
      .error (.TextDecode "UTF-16 string has an odd length")
    else
      match bytes with
      | 0xFE :: 0xFF :: rest =>
        match utf16Chars (beUnits rest) with
        | some cs => .ok (String.mk cs)
        | none => .error (.TextDecode "Expected a UTF-16 string")
      | 0xFF :: 0xFE :: rest =>
        match utf16Chars (leUnits rest) with
        | some cs => .ok (String.mk cs)
        | none => .error (.TextDecode "Expected a UTF-16 string")
      | _ => .error (.TextDecode "UTF-16 string has an invalid byte order mark")
  | .UTF16BE =>
    if bytes.length % 2 ≠ 0 then
      .error (.TextDecode "UTF-16 string has an odd length")
    else
      match utf16Chars (beUnits bytes) with
      | some cs => .ok (String.mk cs)
      | none => .error (.TextDecode "Expected a UTF-16 string")

/-- Strip one encoding-appropriate trailing null terminator from a byte
run: a single trailing zero byte for the single-byte encodings, a trailing
aligned zero pair for the UTF-16 encodings. -/
def stripTrailingTerm (encoding : TextEncoding) (bytes : List Nat) :
    List Nat :=
  match encoding with
  | .Latin1 | .UTF8 =>
    if bytes.getLast? = some 0 then bytes.dropLast else bytes
  | .UTF16 | .UTF16BE =>
    if 2 ≤ bytes.length ∧ bytes.getLast? = some 0 ∧
        bytes.dropLast.getLast? = some 0 then
      bytes.dropLast.dropLast
    else bytes

/-- Modelled from the spec: the text decoder contract (`decode_text`, not
under `src/`, §4.6 of the spec). Terminated mode stops at the first
encoding-appropriate terminator and consumes it, falling back to the whole
buffer when none is found; to-end mode consumes the whole buffer, an
encoding-appropriate trailing terminator not contributing to the decoded
text (per the spec's COMM scenario, where a to-end field of `hi` followed
by a zero byte decodes to exactly `hi`). The decoded string is absent
exactly when no content bytes were available. Returns the optional string
and the advanced cursor. -/
def decode_text (bytes : List Nat) (encoding : TextEncoding)
    (terminated : Bool) : Except LoftyError (Option String × List Nat) :=
  if terminated then
    let p := read_to_terminator encoding bytes
    if p.1.isEmpty then .ok (none, p.2)
    else
      match decode_bytes encoding p.1 with
      | .error e => .error e
      | .ok s => .ok (some s, p.2)
  else
    if bytes.isEmpty then .ok (none, [])
    else
      let content := stripTrailingTerm encoding bytes
      if content.isEmpty then .ok (some "", [])
      else
        match decode_bytes encoding content with
        | .error e => .error e
        | .ok s => .ok (some s, [])

/-- Modelled from the spec: the attached-picture compound parser
(`AttachedPictureFrame::parse`, not under `src/`; its internal layout is
out of scope, only its `parse(cursor, version) -> Result<value>` contract
is consumed here): the remaining bytes become the opaque record. -/
def AttachedPictureFrame.parse (content : List Nat) (_version : ID3v2Version) :
    Except LoftyError (AttachedPictureFrame × List Nat) :=
  .ok (⟨content⟩, [])

/-- Modelled from the spec: the user-defined-text compound parser
(`ExtendedTextFrame::parse`, not under `src/`): three-way result shape,
"result may be absent (empty) with no error". -/
def ExtendedTextFrame.parse (content : List Nat) (_version : ID3v2Version) :
    Except LoftyError (Option ExtendedTextFrame × List Nat) :=
  if content.isEmpty then .ok (none, content) else .ok (some ⟨content⟩, [])

/-- Modelled from the spec: the user-defined-URL compound parser
(`ExtendedUrlFrame::parse`, not under `src/`): analogous to the
user-defined-text delegate. -/
def ExtendedUrlFrame.parse (content : List Nat) (_version : ID3v2Version) :
    Except LoftyError (Option ExtendedUrlFrame × List Nat) :=
  if content.isEmpty then .ok (none, content) else .ok (some ⟨content⟩, [])

/-- Modelled from the spec: the unique-file-identifier compound parser
(`UniqueFileIdentifierFrame::parse`, not under `src/`): "absence is
non-error". -/
def UniqueFileIdentifierFrame.parse (content : List Nat) :
    Except LoftyError (Option UniqueFileIdentifierFrame × List Nat) :=
  if content.isEmpty then .ok (none, content) else .ok (some ⟨content⟩, [])

/-- Modelled from the spec: the popularity-meter compound parser
(`Popularimeter::parse`, not under `src/`): "always produces a value, no
absence path". -/
def Popularimeter.parse (content : List Nat) :
    Except LoftyError (Popularimeter × List Nat) :=
  .ok (⟨content⟩, [])

/-- `verify_encoding` from `content.rs`: the oldest version admits only
markers 0 and 1 (version-specific error otherwise); independently the
marker must map to a known encoding through the fixed lookup. -/
def verify_encoding (encoding : Nat) (version : ID3v2Version) :
    Except LoftyError TextEncoding :=
  if version = .V2 ∧ (encoding ≠ 0 ∧ encoding ≠ 1) then
    .error .V2InvalidTextEncoding
  else
    match TextEncoding.from_u8 encoding with
    | none => .error (.TextDecode "Found invalid encoding")
    | some e => .ok e

/-- `parse_text_language` from `content.rs`: encoding marker, 3-byte
language code taken verbatim, terminated description, to-end content;
the final identifier match selects `Comment` for COMM and `UnSyncText`
for USLT and is `unreachable!()` otherwise. -/
def parse_text_language (content : List Nat) (id : String)
    (version : ID3v2Version) :
    Except LoftyError (Option FrameValue × List Nat) :=
  if content.length < 5 then .ok (none, content)
  else
    match read_u8 content with
    | .error e => .error e
    | .ok (b, c1) =>
      match verify_encoding b version with
      | .error e => .error e
      | .ok encoding =>
        match read_exact 3 c1 with
        | .error e => .error e
        | .ok (language, c2) =>
          match decode_text c2 encoding true with
          | .error e => .error e
          | .ok (description, c3) =>
            match decode_text c3 encoding false with
            | .error e => .error e
            | .ok (cont, c4) =>
              let information : LanguageFrame :=
                ⟨encoding, language, description.getD "", cont.getD ""⟩
              if id = "COMM" then .ok (some (.Comment information), c4)
              else if id = "USLT" then .ok (some (.UnSyncText information), c4)
              else .error .Unreachable

/-- `parse_text` from `content.rs`: buffers of fewer than 2 bytes carry no
value; otherwise an encoding marker verified against the version, then one
terminated text field wrapped as the `Text` variant. -/
def parse_text (content : List Nat) (version : ID3v2Version) :
    Except LoftyError (Option FrameValue × List Nat) :=
  if content.length < 2 then .ok (none, content)
  else
    match read_u8 content with
    | .error e => .error e
    | .ok (b, c1) =>
      match verify_encoding b version with
      | .error e => .error e
      | .ok encoding =>
        match decode_text c1 encoding true with
        | .error e => .error e
        | .ok (text, c2) =>
          .ok (some (.Text encoding (text.getD "")), c2)

/-- `parse_link` from `content.rs`: an empty buffer carries no value;
otherwise one terminated Latin-1 text field wrapped as the `URL` variant,
with no encoding marker and no version consulted. -/
def parse_link (content : List Nat) :
    Except LoftyError (Option FrameValue × List Nat) :=
  if content.isEmpty then .ok (none, content)
  else
    match decode_text content .Latin1 true with
    | .error e => .error e
    | .ok (link, c1) => .ok (some (.URL (link.getD "")), c1)

/-- `parse_content` from `content.rs`: the frame dispatcher, with the match
arms in source order. -/
def parse_content (content : List Nat) (id : String)
    (version : ID3v2Version) :
    Except LoftyError (Option FrameValue × List Nat) :=
  if id = "APIC" then
    match AttachedPictureFrame.parse content version with
    | .error e => .error e
    | .ok (pic, rest) => .ok (some (.Picture pic), rest)
  else if id = "TXXX" then
    match ExtendedTextFrame.parse content version with
    | .error e => .error e
    | .ok (o, rest) => .ok (o.map FrameValue.UserText, rest)
  else if id = "WXXX" then
    match ExtendedUrlFrame.parse content version with
    | .error e => .error e
    | .ok (o, rest) => .ok (o.map FrameValue.UserURL, rest)
  else if id = "COMM" ∨ id = "USLT" then
    parse_text_language content id version
  else if id = "UFID" then
    match UniqueFileIdentifierFrame.parse content with
    | .error e => .error e
    | .ok (o, rest) => .ok (o.map FrameValue.UniqueFileIdentifier, rest)
  else if startsWithChar id 'T' then
    parse_text content version
  else if id = "WFED" ∨ id = "GRP1" ∨ id = "MVNM" ∨ id = "MVIN" then
    parse_text content version
  else if startsWithChar id 'W' then
    parse_link content
  else if id = "POPM" then
    match Popularimeter.parse content with
    | .error e => .error e
    | .ok (p, rest) => .ok (some (.Popularimeter p), rest)
  else
    .ok (some (.Binary content), content)

/-- The constructor tag of a decoded frame value, for stating that the
variant is a function of the identifier alone. -/
def variantOf : FrameValue → Nat
  | .Picture _ => 0
  | .UserText _ => 1
  | .UserURL _ => 2
  | .Comment _ => 3
  | .UnSyncText _ => 4
  | .UniqueFileIdentifier _ => 5
  | .Text _ _ => 6
  | .URL _ => 7
  | .Popularimeter _ => 8
  | .Binary _ => 9

/-- Whether a parse outcome is `Ok(None)` (success carrying no value),
regardless of the cursor position. -/
def isOkNone : Except LoftyError (Option FrameValue × List Nat) → Bool
  | .ok (none, _) => true
  | _ => false

/-- The identifiers of claim C1: no exact-match arm, no vendor allow-list
entry, and neither sentinel-letter prefix applies, so the dispatcher falls
through to the `Binary` arm. -/
def matchesNoRule (id : String) : Prop :=
  id ≠ "APIC" ∧ id ≠ "TXXX" ∧ id ≠ "WXXX" ∧ id ≠ "COMM" ∧ id ≠ "USLT" ∧
  id ≠ "UFID" ∧ id ≠ "POPM" ∧
  id ≠ "WFED" ∧ id ≠ "GRP1" ∧ id ≠ "MVNM" ∧ id ≠ "MVIN" ∧
  startsWithChar id 'T' = false ∧ startsWithChar id 'W' = false

instance (id : String) : Decidable (matchesNoRule id) := by
  unfold matchesNoRule
  infer_instance

/-- An error produced by the byte decoding core is always a `TextDecode`
error. -/
theorem decode_bytes_err_shape (e : TextEncoding) (b : List Nat)
    (err : LoftyError) (h : decode_bytes e b = .error err) :
    ∃ s, err = .TextDecode s := by
  cases e <;> simp only [decode_bytes] at h <;>
    (repeat' split at h) <;> (try simp_all) <;> exact ⟨_, h.symm⟩

/-- An error produced by the encoding verifier is the version-specific one
or a `TextDecode` error. -/
theorem verify_encoding_err_shape (m : Nat) (v : ID3v2Version)
    (err : LoftyError) (h : verify_encoding m v = .error err) :
    err = .V2InvalidTextEncoding ∨ ∃ s, err = .TextDecode s := by
  simp only [verify_encoding] at h
  repeat' split at h
  all_goals (try simp_all)
  all_goals exact Or.inr ⟨_, h.symm⟩

/-- A failed byte read is an I/O error. -/
theorem read_u8_err_shape (c : List Nat) (err : LoftyError)
    (h : read_u8 c = .error err) : err = .Io := by
  cases c <;> simp_all [read_u8]

/-- A failed exact read is an I/O error. -/
theorem read_exact_err_shape (n : Nat) (c : List Nat) (err : LoftyError)
    (h : read_exact n c = .error err) : err = .Io := by
  simp only [read_exact] at h
  split at h <;> simp_all

/-- An error produced by the text decoder is always a `TextDecode` error. -/
theorem decode_text_err_shape (b : List Nat) (e : TextEncoding) (t : Bool)
    (err : LoftyError) (h : decode_text b e t = .error err) :
    ∃ s, err = .TextDecode s := by
  simp only [decode_text] at h
  repeat' split at h
  all_goals (try simp_all)
  all_goals exact decode_bytes_err_shape _ _ _ (by assumption)

/-- The generic text-frame parser never errors with the panic marker. -/
theorem parse_text_err_shape (c : List Nat) (v : ID3v2Version)
    (err : LoftyError) (h : parse_text c v = .error err) :
    err ≠ .Unreachable := by
  simp only [parse_text] at h
  repeat' split at h
  all_goals (try simp_all)
  all_goals intro hc
  all_goals subst hc
  all_goals first
    | exact absurd (read_u8_err_shape _ _ (by assumption)) (by decide)
    | (rcases verify_encoding_err_shape _ _ _ (by assumption) with h2 | ⟨s, h2⟩ <;>
        simp at h2)
    | (obtain ⟨s, h2⟩ := decode_text_err_shape _ _ _ _ (by assumption); simp at h2)

/-- The generic link-frame parser never errors with the panic marker. -/
theorem parse_link_err_shape (c : List Nat) (err : LoftyError)
    (h : parse_link c = .error err) : err ≠ .Unreachable := by
  simp only [parse_link] at h
  repeat' split at h
  all_goals (try simp_all)
  all_goals intro hc
  all_goals subst hc
  all_goals obtain ⟨s, h2⟩ := decode_text_err_shape _ _ _ _ (by assumption)
  all_goals simp at h2

/-- When called with one of its two intended identifiers, the language-frame
parser never reaches the `unreachable!()` branch. -/
theorem parse_text_language_no_panic (c : List Nat) (id : String)
    (v : ID3v2Version) (hid : id = "COMM" ∨ id = "USLT") :
    parse_text_language c id v ≠ .error .Unreachable := by
  intro h
  simp only [parse_text_language] at h
  repeat' split at h
  all_goals (try simp_all)
  all_goals first
    | exact absurd (read_u8_err_shape _ _ (by assumption)) (by decide)
    | exact absurd (read_exact_err_shape _ _ _ (by assumption)) (by decide)
    | (rcases verify_encoding_err_shape _ _ _ (by assumption) with h2 | ⟨s, h2⟩ <;>
        simp at h2)
    | (obtain ⟨s, h2⟩ := decode_text_err_shape _ _ _ _ (by assumption); simp at h2)

/-- A successful value from the generic text-frame parser is always a `Text`
variant. -/
theorem parse_text_ok_shape (c : List Nat) (v : ID3v2Version) (f : FrameValue)
    (r : List Nat) (h : parse_text c v = .ok (some f, r)) :
    ∃ e s, f = .Text e s := by
  simp only [parse_text] at h
  repeat' split at h
  all_goals (try simp_all)
  all_goals exact ⟨_, _, h.1.symm⟩

/-- A successful value from the generic link-frame parser is always a `URL`
variant. -/
theorem parse_link_ok_shape (c : List Nat) (f : FrameValue)
    (r : List Nat) (h : parse_link c = .ok (some f, r)) :
    ∃ s, f = .URL s := by
  simp only [parse_link] at h
  repeat' split at h
  all_goals (try simp_all)
  all_goals exact ⟨_, h.1.symm⟩

/-- A successful value from the language-frame parser is a `Comment` under
identifier COMM and an `UnSyncText` under identifier USLT, and those are the
only two identifiers that can succeed. -/
theorem parse_text_language_ok_shape (c : List Nat) (id : String)
    (v : ID3v2Version) (f : FrameValue) (r : List Nat)
    (h : parse_text_language c id v = .ok (some f, r)) :
    (id = "COMM" ∧ ∃ l, f = .Comment l) ∨
      (id = "USLT" ∧ ∃ l, f = .UnSyncText l) := by
  simp only [parse_text_language] at h
  repeat' split at h
  all_goals (try simp_all)
  all_goals exact ⟨_, h.1.symm⟩

/-- The modelled user-defined-text delegate never errors. -/
theorem ExtendedTextFrame_parse_no_err (c : List Nat) (v : ID3v2Version)
    (err : LoftyError) : ExtendedTextFrame.parse c v ≠ .error err := by
  simp only [ExtendedTextFrame.parse]
  split <;> simp

/-- The modelled user-defined-URL delegate never errors. -/
theorem ExtendedUrlFrame_parse_no_err (c : List Nat) (v : ID3v2Version)
    (err : LoftyError) : ExtendedUrlFrame.parse c v ≠ .error err := by
  simp only [ExtendedUrlFrame.parse]
  split <;> simp

/-- The modelled unique-file-identifier delegate never errors. -/
theorem UniqueFileIdentifierFrame_parse_no_err (c : List Nat)
    (err : LoftyError) : UniqueFileIdentifierFrame.parse c ≠ .error err := by
  simp only [UniqueFileIdentifierFrame.parse]
  split <;> simp

/-- The dispatch arm selected by an identifier, as a constructor tag. -/
def dispatchTag (id : String) : Nat :=
  if id = "APIC" then 0
  else if id = "TXXX" then 1
  else if id = "WXXX" then 2
  else if id = "COMM" then 3
  else if id = "USLT" then 4
  else if id = "UFID" then 5
  else if startsWithChar id 'T' then 6
  else if id = "WFED" ∨ id = "GRP1" ∨ id = "MVNM" ∨ id = "MVIN" then 6
  else if startsWithChar id 'W' then 7
  else if id = "POPM" then 8
  else 9

/-- The constructor tag of any text-frame success is that of `Text`. -/
theorem parse_text_ok_variant (c : List Nat) (v : ID3v2Version)
    (f : FrameValue) (r : List Nat)
    (h : parse_text c v = .ok (some f, r)) : variantOf f = 6 := by
  obtain ⟨e, s, hf⟩ := parse_text_ok_shape c v f r h
  simp [hf, variantOf]

/-- The constructor tag of any link-frame success is that of `URL`. -/
theorem parse_link_ok_variant (c : List Nat) (f : FrameValue) (r : List Nat)
    (h : parse_link c = .ok (some f, r)) : variantOf f = 7 := by
  obtain ⟨s, hf⟩ := parse_link_ok_shape c f r h
  simp [hf, variantOf]

/-- The constructor tag of any COMM language-frame success is that of
`Comment`. -/
theorem ptl_comm_variant (c : List Nat) (v : ID3v2Version)
    (f : FrameValue) (r : List Nat)
    (h : parse_text_language c "COMM" v = .ok (some f, r)) :
    variantOf f = 3 := by
  rcases parse_text_language_ok_shape _ _ _ _ _ h with ⟨-, l, hf⟩ | ⟨hid, -⟩
  · simp [hf, variantOf]
  · simp at hid

/-- The constructor tag of any USLT language-frame success is that of
`UnSyncText`. -/
theorem ptl_uslt_variant (c : List Nat) (v : ID3v2Version)
    (f : FrameValue) (r : List Nat)
    (h : parse_text_language c "USLT" v = .ok (some f, r)) :
    variantOf f = 4 := by
  rcases parse_text_language_ok_shape _ _ _ _ _ h with ⟨hid, -⟩ | ⟨-, l, hf⟩
  · simp at hid
  · simp [hf, variantOf]

/-- The constructor tag of any dispatcher success is fully determined by the
dispatch arm its identifier selects. -/
theorem parse_content_ok_variant (c : List Nat) (id : String)
    (v : ID3v2Version) (f : FrameValue) (r : List Nat)
    (h : parse_content c id v = .ok (some f, r)) :
    variantOf f = dispatchTag id := by
  simp only [parse_content] at h
  simp only [dispatchTag]
  repeat' split at h
  all_goals try (simp_all [AttachedPictureFrame.parse, ExtendedTextFrame.parse,
    ExtendedUrlFrame.parse, UniqueFileIdentifierFrame.parse, Popularimeter.parse])
  all_goals try (obtain ⟨⟨a, ha, hf⟩, hr⟩ := h; subst_vars; simp_all [variantOf])
  all_goals try (casesm _ ∨ _ <;> subst_vars)
  all_goals first
    | exact (ptl_comm_variant _ _ _ _ h).trans (by decide)
    | exact (ptl_uslt_variant _ _ _ _ h).trans (by decide)
    | exact (parse_text_ok_variant _ _ _ _ h).trans (by simp_all)
    | exact (parse_link_ok_variant _ _ _ h).trans (by simp_all)

/-- Terminated Latin-1 decoding never fails. -/
theorem decode_text_latin1_ok (b : List Nat) (t : Bool) :
    ∃ o r, decode_text b .Latin1 t = .ok (o, r) := by
  simp only [decode_text, decode_bytes]
  repeat' split
  all_goals exact ⟨_, _, rfl⟩

/-- Claim C1, counterexample: decoding the unknown identifier XXXX with
content `[1, 2, 3]` yields the Binary value of the whole remaining run, but
the cursor is returned untouched — still `[1, 2, 3]`, not empty — so the
claim's "cursor is fully consumed (empty) on return" fails. -/
theorem parse_content_unknown_id_leaves_cursor :
    parse_content [1, 2, 3] "XXXX" .V4 =
      .ok (some (.Binary [1, 2, 3]), [1, 2, 3]) ∧
    ([1, 2, 3] : List Nat) ≠ [] :=
  ⟨by decide, by decide⟩

/-- Claim C1, amended: for every identifier matching no dispatch rule (not
APIC/TXXX/WXXX/COMM/USLT/UFID/POPM, not in the vendor allow-list, and not
starting with T or W), decode returns Ok(Some(Binary v)) where v equals the
entire remaining byte run at call time, and the cursor is left unchanged
(the fallback copies the bytes without consuming them). -/
theorem parse_content_unknown_id_binary (id : String) (v : ID3v2Version)
    (c : List Nat) (h : matchesNoRule id) :
    parse_content c id v = .ok (some (.Binary c), c) := by
  obtain ⟨h1, h2, h3, h4, h5, h6, h7, h8, h9, h10, h11, h12, h13⟩ := h
  simp [parse_content, h1, h2, h3, h4, h5, h6, h7, h8, h9, h10, h11, h12, h13]

/-- Claim C1, witness: the amended theorem applied to identifier XXXX with
content `[7]`. -/
theorem parse_content_unknown_id_binary_witness :
    matchesNoRule "XXXX" ∧
      parse_content [7] "XXXX" .V3 = .ok (some (.Binary [7]), [7]) :=
  ⟨by decide, parse_content_unknown_id_binary "XXXX" .V3 [7] (by decide)⟩

/-- Claim C2, counterexample: on input `[1, 0x00]` the generic text-frame
parser at the newest version does not return Ok(None) — the buffer has
exactly 2 bytes, so the too-short guard (length below 2) does not fire. -/
theorem parse_text_marker_pair_not_none :
    isOkNone (parse_text [1, 0] .V4) = false := by decide

/-- Claim C2, amended: on input `[1, 0x00]` (UTF-16 marker followed by a
lone zero byte) the generic text-frame parser at the newest version returns
Ok(Some(Text)) with encoding UTF-16 and an empty string, consuming the
whole buffer; only inputs of fewer than 2 total bytes return Ok(None). -/
theorem parse_text_marker_pair_amended :
    parse_text [1, 0] .V4 = .ok (some (.Text .UTF16 ""), []) := by decide

/-- Claim C3: for every marker byte and version, on the oldest generation
(V2) the verifier accepts exactly markers 0 and 1 and rejects every other
marker — known to the fixed lookup or not — with the version-specific
error, showing the version check runs before the lookup check; on newer
versions it accepts exactly the markers known to the fixed lookup and
rejects the rest with the generic invalid-encoding error. -/
theorem verify_encoding_classification (m : Nat) (hm : m < 256)
    (v : ID3v2Version) :
    (v = .V2 →
      (((verify_encoding m v).isOk ↔ (m = 0 ∨ m = 1)) ∧
        (¬(m = 0 ∨ m = 1) →
          verify_encoding m v = .error .V2InvalidTextEncoding))) ∧
    (v ≠ .V2 →
      (((verify_encoding m v).isOk ↔ (TextEncoding.from_u8 m).isSome) ∧
        (TextEncoding.from_u8 m = none →
          verify_encoding m v = .error (.TextDecode "Found invalid encoding")))) := by
  by_cases h0 : m = 0 <;> by_cases h1 : m = 1 <;> by_cases h2 : m = 2 <;>
    by_cases h3 : m = 3 <;> cases v <;>
    simp_all [verify_encoding, TextEncoding.from_u8, Except.isOk, Except.toBool]

/-- Claim C3, witness: marker 4 — a value unknown to the lookup — on the
oldest version draws the version-specific error. -/
theorem verify_encoding_classification_witness :
    (4 < 256) ∧ verify_encoding 4 .V2 = .error .V2InvalidTextEncoding :=
  ⟨by decide,
    ((verify_encoding_classification 4 (by decide) .V2).1 rfl).2 (by decide)⟩

/-- Claim C4: for every buffer shorter than the stated minimum (2 bytes for
the text-frame parser, 5 for the language-frame parser, 1 for the
link-frame parser) and every version, the parser returns Ok(None) — never
an error — with the cursor exactly as given, so nothing past the buffer end
is consumed. -/
theorem parsers_short_input_ok_none (c : List Nat) (id : String)
    (v : ID3v2Version) :
    (c.length < 2 → parse_text c v = .ok (none, c)) ∧
    (c.length < 5 → parse_text_language c id v = .ok (none, c)) ∧
    (c = [] → parse_link c = .ok (none, c)) := by
  refine ⟨fun h => ?_, fun h => ?_, fun h => ?_⟩
  · simp [parse_text, h]
  · simp [parse_text_language, h]
  · simp [parse_link, h]

/-- Claim C4, witness: a 1-byte buffer for the text parser, a 4-byte buffer
for the language parser and an empty buffer for the link parser. -/
theorem parsers_short_input_ok_none_witness :
    (([0] : List Nat).length < 2 ∧ parse_text [0] .V4 = .ok (none, [0])) ∧
    (([1, 2, 3, 4] : List Nat).length < 5 ∧
      parse_text_language [1, 2, 3, 4] "COMM" .V4 = .ok (none, [1, 2, 3, 4])) ∧
    (([] : List Nat) = [] ∧ parse_link [] = .ok (none, [])) :=
  ⟨⟨by decide, (parsers_short_input_ok_none [0] "COMM" .V4).1 (by decide)⟩,
    ⟨by decide,
      (parsers_short_input_ok_none [1, 2, 3, 4] "COMM" .V4).2.1 (by decide)⟩,
    ⟨rfl, (parsers_short_input_ok_none [] "COMM" .V4).2.2 rfl⟩⟩

/-- Claim C5: exact-match rules win over prefix rules — TXXX routes to the
extended-text delegate rather than the generic text parser despite starting
with T, WXXX routes to the extended-URL delegate and WFED to the generic
text parser rather than the generic link parser despite starting with W. -/
theorem dispatch_exact_match_priority :
    (∀ c v, parse_content c "TXXX" v =
      (ExtendedTextFrame.parse c v).map
        (fun p => (p.1.map FrameValue.UserText, p.2))) ∧
    (∀ c v, parse_content c "WXXX" v =
      (ExtendedUrlFrame.parse c v).map
        (fun p => (p.1.map FrameValue.UserURL, p.2))) ∧
    (∀ c v, parse_content c "WFED" v = parse_text c v) := by
  refine ⟨fun c v => ?_, fun c v => ?_, fun c v => ?_⟩
  · cases hp : ExtendedTextFrame.parse c v <;>
      simp [parse_content, hp, Except.map]
  · cases hp : ExtendedUrlFrame.parse c v <;>
      simp [parse_content, hp, Except.map]
  · simp [parse_content]

/-- Claim C6: identifier COMM with content
`[0, b'e', b'n', b'g', 0, b'h', b'i', 0]` decodes on every supported
version to a Comment with encoding Latin-1, language bytes "eng" verbatim,
an empty description (terminator found immediately) and content "hi". -/
theorem parse_content_comm_scenario (v : ID3v2Version) :
    parse_content [0, 101, 110, 103, 0, 104, 105, 0] "COMM" v =
      .ok (some (.Comment ⟨.Latin1, [101, 110, 103], "", "hi"⟩), []) := by
  cases v <;> decide

/-- Claim C7: the link-frame parser is version-free (it takes no version
argument) and reads no encoding marker: every non-empty buffer decodes as
Latin-1 into a URL variant, and the unknown W-prefixed identifier WXYZ with
content `[b'h', b't', b't', b'p']` and no terminator decodes through the
dispatcher to URL "http", consuming to the end of the buffer. -/
theorem parse_link_latin1_url :
    (∀ c, c ≠ [] →
      ∃ s rest, parse_link c = .ok (some (.URL s), rest)) ∧
    (∀ v, parse_content [104, 116, 116, 112] "WXYZ" v =
      .ok (some (.URL "http"), [])) := by
  constructor
  · intro c hc
    have hne : c.isEmpty = false := by simpa [List.isEmpty_iff] using hc
    obtain ⟨o, r, hd⟩ := decode_text_latin1_ok c true
    refine ⟨o.getD "", r, ?_⟩
    simp [parse_link, hne, hd]
  · intro v
    cases v <;> decide

/-- Claim C7, witness: the non-empty buffer `[104]`. -/
theorem parse_link_latin1_url_witness :
    ([104] : List Nat) ≠ [] ∧
      ∃ s rest, parse_link [104] = .ok (some (.URL s), rest) :=
  ⟨by decide, parse_link_latin1_url.1 [104] (by decide)⟩

/-- Claim C8: the dispatcher invokes the language-frame parser only for the
identifiers COMM and USLT, so the `unreachable!()` branch of its final
identifier match — modelled as the error value `Unreachable` — is never
executed for any identifier, version or content. -/
theorem parse_content_never_unreachable (id : String) (v : ID3v2Version)
    (c : List Nat) : parse_content c id v ≠ .error .Unreachable := by
  intro h
  simp only [parse_content] at h
  repeat' split at h
  all_goals (try simp_all [AttachedPictureFrame.parse, Popularimeter.parse])
  all_goals first
    | exact ExtendedTextFrame_parse_no_err _ _ _ (by assumption)
    | exact ExtendedUrlFrame_parse_no_err _ _ _ (by assumption)
    | exact UniqueFileIdentifierFrame_parse_no_err _ _ (by assumption)
    | exact parse_text_language_no_panic _ _ _ (by assumption) (by assumption)
    | exact parse_text_err_shape _ _ _ (by assumption) rfl
    | exact parse_link_err_shape _ _ (by assumption) rfl

/-- Claim C8, witness: the theorem applied to SYLT — a frame the dispatcher
sends to the Binary fallback — on the newest version. -/
theorem parse_content_never_unreachable_witness :
    parse_content [] "SYLT" .V4 ≠ .error .Unreachable :=
  parse_content_never_unreachable "SYLT" .V4 []

/-- Claim C9: for a fixed identifier and version, any two contents whose
decodes both succeed with a value produce values built from the same
constructor of the decoded-frame union — the variant is a function of the
identifier alone, never of the content bytes. -/
theorem variant_function_of_identifier (id : String) (v : ID3v2Version)
    (c1 c2 : List Nat) (f1 f2 : FrameValue) (r1 r2 : List Nat)
    (h1 : parse_content c1 id v = .ok (some f1, r1))
    (h2 : parse_content c2 id v = .ok (some f2, r2)) :
    variantOf f1 = variantOf f2 :=
  (parse_content_ok_variant c1 id v f1 r1 h1).trans
    (parse_content_ok_variant c2 id v f2 r2 h2).symm

/-- Claim C9, witness: identifier TIT2 on two different contents, both
succeeding with a `Text` value. -/
theorem variant_function_of_identifier_witness :
    parse_content [0, 104, 0] "TIT2" .V4 = .ok (some (.Text .Latin1 "h"), []) ∧
    parse_content [0, 0] "TIT2" .V4 = .ok (some (.Text .Latin1 ""), []) ∧
    variantOf (.Text .Latin1 "h") = variantOf (.Text .Latin1 "") :=
  ⟨by decide, by decide,
    variant_function_of_identifier "TIT2" .V4 [0, 104, 0] [0, 0]
      (.Text .Latin1 "h") (.Text .Latin1 "") [] [] (by decide) (by decide)⟩

/-- Claim C10: when any of the three generic parsers returns Ok(None)
because the buffer is below its minimum length, the cursor is left
completely unchanged — not a single byte is consumed before the length
check short-circuits. -/
theorem parsers_short_input_cursor_unchanged (c : List Nat) (id : String)
    (v : ID3v2Version) :
    (c.length < 2 → (parse_text c v).toOption.map Prod.snd = some c) ∧
    (c.length < 5 →
      (parse_text_language c id v).toOption.map Prod.snd = some c) ∧
    (c = [] → (parse_link c).toOption.map Prod.snd = some c) := by
  refine ⟨fun h => ?_, fun h => ?_, fun h => ?_⟩ <;>
    simp [parse_text, parse_text_language, parse_link, h, Except.toOption]

/-- Claim C10, witness: the one-byte buffer `[9]` for the text and language
parsers and the empty buffer for the link parser. -/
theorem parsers_short_input_cursor_unchanged_witness :
    (([9] : List Nat).length < 2 ∧
      (parse_text [9] .V3).toOption.map Prod.snd = some [9]) ∧
    (([9] : List Nat).length < 5 ∧
      (parse_text_language [9] "USLT" .V3).toOption.map Prod.snd = some [9]) ∧
    (([] : List Nat) = [] ∧
      (parse_link []).toOption.map Prod.snd = some []) :=
  ⟨⟨by decide, (parsers_short_input_cursor_unchanged [9] "USLT" .V3).1 (by decide)⟩,
    ⟨by decide,
      (parsers_short_input_cursor_unchanged [9] "USLT" .V3).2.1 (by decide)⟩,
    ⟨rfl, (parsers_short_input_cursor_unchanged [] "USLT" .V3).2.2 rfl⟩⟩

end Lofty
